import Mathlib

/-!
Verification of the HomeDar visitor-tracking / ranking / OTP core.

The definitions below are a shallow embedding of the Python sources under
`backend/catalog/`:

* `catalog/models.py`       — `VisitorProfile`, `ProductView`, `ProductLike`
* `catalog/utils/geo.py`    — `get_client_ip` callers, `lookup_location`,
                              `ensure_visitor_profile_for_request`,
                              `lookup_location_from_coords`
* `catalog/utils/otp.py`    — `validate_otp` (the `EmailOTP` model itself is
                              not among the sources; its two properties are
                              modelled from the spec, see below)
* `catalog/views.py`        — `ProductViewTrackingAPIView.post`,
                              `PopularProductsAPIView.get`,
                              `AlsoViewedProductsAPIView.get`,
                              `ProductLikeToggleAPIView.post`
* `catalog/tasks.py`        — `backfill_location_from_coords`

Modelling conventions: timestamps are naturals; database rows live in lists;
nullable columns are `Option`; coordinates (Django `FloatField`s, used only
through equality tests) are `Int`; Django `filter(...).update(...)` /
`save(update_fields=...)` are functional updates keyed by primary key.
-/

namespace HomeDar

/-- Python truthiness of an optional string: `None` and the empty string are
falsy (used for `if ip:`-style tests in the sources). -/
def strTruthy : Option String → Bool
  | none => false
  | some s => s ≠ ""

/-- Character-wise lower-casing, the embedding of Python `str.lower()` for the
ASCII identifiers appearing here. -/
def lowerStr (s : String) : String := ⟨s.data.map Char.toLower⟩

/-- Embedding of Python `str.strip()`: drop whitespace from both ends. -/
def trimStr (s : String) : String :=
  ⟨(((s.data.dropWhile Char.isWhitespace).reverse).dropWhile Char.isWhitespace).reverse⟩

/-- Lexicographic comparison of character lists; the embedding of the SQL
string collation used by `ORDER BY country ASC, city ASC`. -/
def charsLt : List Char → List Char → Bool
  | [], [] => false
  | [], _ :: _ => true
  | _ :: _, [] => false
  | c :: cs, d :: ds => c < d || (c = d && charsLt cs ds)

/-- String comparison derived from `charsLt`. -/
def strLt (s t : String) : Bool := charsLt s.data t.data

/-- Strict order on nullable strings: SQL `NULL` collates first (backend
dependent in general; no theorem below depends on where NULL sorts). -/
def optLt : Option String → Option String → Prop
  | none, none => False
  | none, some _ => True
  | some _, none => False
  | some s, some t => strLt s t

instance : ∀ x y : Option String, Decidable (optLt x y)
  | none, none => isFalse (fun h => h)
  | none, some _ => isTrue trivial
  | some _, none => isFalse (fun h => h)
  | some s, some t => inferInstanceAs (Decidable (strLt s t = true))

/-- Non-strict companion of `optLt`. -/
def optLe (x y : Option String) : Prop := optLt x y ∨ x = y

instance : ∀ x y : Option String, Decidable (optLe x y) := fun x y =>
  inferInstanceAs (Decidable (_ ∨ _))

/-! ## Data model (catalog/models.py) -/

/-- Row of `catalog.models.VisitorProfile` (primary key `visitor_id`). -/
structure VisitorProfile where
  visitor_id : String
  first_seen : Nat
  last_seen : Nat
  last_ip : Option String
  country : Option String
  city : Option String
  latitude : Option Int
  longitude : Option Int
deriving DecidableEq, Repr

/-- Row of `catalog.models.ProductView` (primary key `id`; `user_agent` is
never read by the operations verified here and is omitted). -/
structure ProductView where
  id : Nat
  visitor_id : String
  product_id : String
  viewed_at : Nat
  country : Option String
  city : Option String
  latitude : Option Int
  longitude : Option Int
deriving DecidableEq, Repr

/-- Row of `catalog.models.ProductLike` (unique together `(visitor, product)`). -/
structure ProductLike where
  id : Nat
  visitor_id : String
  product_id : String
  created_at : Nat
deriving DecidableEq, Repr

/-- The relational store the tracking views operate on.  `products` is the
external `Product` table reduced to its ids (only existence is consulted);
`nextViewId` / `nextLikeId` supply fresh primary keys. -/
structure Db where
  visitors : List VisitorProfile
  views : List ProductView
  likes : List ProductLike
  products : List String
  nextViewId : Nat
  nextLikeId : Nat
deriving DecidableEq, Repr

/-- `VisitorProfile.objects.get(visitor_id=vid)` as a partial lookup. -/
def findProfile (db : Db) (vid : String) : Option VisitorProfile :=
  db.visitors.find? (fun p => p.visitor_id = vid)

/-- `profile.save()` — replace the row with primary key `p.visitor_id`. -/
def saveProfile (db : Db) (p : VisitorProfile) : Db :=
  { db with visitors := db.visitors.map (fun q => if q.visitor_id = p.visitor_id then p else q) }

/-- `ProductView.objects.filter(visitor=vid, product=pid)`. -/
def viewsFor (db : Db) (vid pid : String) : List ProductView :=
  db.views.filter (fun w => w.visitor_id = vid ∧ w.product_id = pid)

/-- Of two events, the more recently viewed one (left biased on ties). -/
def moreRecent (a b : ProductView) : ProductView :=
  if b.viewed_at > a.viewed_at then b else a

/-- `....filter(visitor=vid, product=pid).order_by("-viewed_at").first()`. -/
def latestViewFor (db : Db) (vid pid : String) : Option ProductView :=
  match viewsFor db vid pid with
  | [] => none
  | x :: xs => some (xs.foldl moreRecent x)

/-- `ProductLike.objects.filter(visitor=vid, product=pid)`. -/
def likesFor (db : Db) (vid pid : String) : List ProductLike :=
  db.likes.filter (fun l => l.visitor_id = vid ∧ l.product_id = pid)

/-- `ProductLike.objects.filter(product=pid).count()`. -/
def likeCount (db : Db) (pid : String) : Nat :=
  (db.likes.filter (fun l => l.product_id = pid)).length

/-! ## VisitorIdentityStore (catalog/utils/geo.py, ensure_visitor_profile_for_request) -/

/-- Body of `ensure_visitor_profile_for_request` once `visitor_id` is known to
be non-empty: `get_or_create`, then refresh `last_seen` and, when the client
IP is present and differs, `last_ip`.  Nothing else is touched — in
particular `lookup_location` (the geolocation collaborator, passed around
below as a `geo` argument) is *never called* by this function, although its
own docstring promises to "populate country/city from IP". -/
def ensureCore (db : Db) (vid : String) (ip : Option String) (now : Nat) :
    VisitorProfile × Db :=
  let pair :=
    match findProfile db vid with
    | some p => (p, db)
    | none =>
      let p : VisitorProfile :=
        { visitor_id := vid, first_seen := now, last_seen := now, last_ip := ip,
          country := none, city := none, latitude := none, longitude := none }
      (p, { db with visitors := p :: db.visitors })
  let profile1 := { pair.1 with last_seen := now }
  let profile2 :=
    if strTruthy ip ∧ ip ≠ profile1.last_ip then { profile1 with last_ip := ip } else profile1
  (profile2, saveProfile pair.2 profile2)

/-- `ensure_visitor_profile_for_request(request, visitor_id)`.  The `geo`
argument stands for the forward IP-geolocation collaborator
(`lookup_location`); the function ignores it, exactly as the source never
invokes the lookup. -/
def ensure_visitor_profile_for_request
    (geo : String → Option (String × String × Int × Int))
    (db : Db) (visitor_id : String) (ip : Option String) (now : Nat) :
    Option VisitorProfile × Db :=
  if visitor_id = "" then (none, db)
  else
    let r := ensureCore db visitor_id ip now
    (some r.1, r.2)

/-! ## EventRecorder (catalog/views.py, ProductViewTrackingAPIView.post) -/

/-- Outcome of a tracking POST: a 400 for missing/unknown inputs, otherwise
the `{"success": true, "duplicate": b}` payload. -/
inductive TrackResult where
  | badRequest
  | ok (duplicate : Bool)
deriving DecidableEq, Repr

/-- The in-place mutation performed on an existing `(visitor, product)` event
by a repeat view: refresh `viewed_at`; overwrite latitude/longitude when a
supplied coordinate differs; if either coordinate changed, clear the
`city`/`country` snapshot. -/
def applyRepeatView (existing : ProductView) (latitude longitude : Option Int)
    (now : Nat) : ProductView :=
  let latChanged : Prop := latitude ≠ none ∧ existing.latitude ≠ latitude
  let lonChanged : Prop := longitude ≠ none ∧ existing.longitude ≠ longitude
  let e1 := if latChanged then { existing with latitude := latitude } else existing
  let e2 := if lonChanged then { e1 with longitude := longitude } else e1
  let e3 := { e2 with viewed_at := now }
  if latChanged ∨ lonChanged then { e3 with city := none, country := none } else e3

/-- `ProductViewTrackingAPIView.post`.  Serializer validation (product must
exist) and the missing-`visitor_id` check come first; then the visitor profile
is ensured and its browser coordinates refreshed; then the latest event for
the pair is updated in place (duplicate) or a fresh row is inserted. -/
def recordView (geo : String → Option (String × String × Int × Int))
    (db : Db) (product_id visitor_id : String)
    (latitude longitude : Option Int) (ip : Option String) (now : Nat) :
    TrackResult × Db :=
  if product_id ∉ db.products then (.badRequest, db)
  else if visitor_id = "" then (.badRequest, db)
  else
    match ensure_visitor_profile_for_request geo db visitor_id ip now with
    | (none, db1) => (.badRequest, db1)
    | (some vp, db1) =>
      let vp1 := if latitude ≠ none ∧ vp.latitude ≠ latitude then { vp with latitude := latitude } else vp
      let vp2 := if longitude ≠ none ∧ vp1.longitude ≠ longitude then { vp1 with longitude := longitude } else vp1
      let db2 := saveProfile db1 vp2
      match latestViewFor db2 visitor_id product_id with
      | some existing =>
        let e := applyRepeatView existing latitude longitude now
        (.ok true, { db2 with views := db2.views.map (fun w => if w.id = existing.id then e else w) })
      | none =>
        let w : ProductView :=
          { id := db2.nextViewId, visitor_id := visitor_id, product_id := product_id,
            viewed_at := now, country := vp2.country, city := vp2.city,
            latitude := latitude, longitude := longitude }
        (.ok false, { db2 with views := w :: db2.views, nextViewId := db2.nextViewId + 1 })

/-! ## EngagementStore (catalog/views.py, ProductLikeToggleAPIView.post) -/

/-- Outcome of the like-toggle POST. -/
inductive LikeResult where
  | badRequest
  | ok (liked : Bool) (like_count : Nat)
deriving DecidableEq, Repr

/-- `ProductLikeToggleAPIView.post`: ensure the profile, delete the pair's
like rows if any exist (unlike) or insert one (like), then recount the
product's likes. -/
def toggleLike (geo : String → Option (String × String × Int × Int))
    (db : Db) (product_id visitor_id : String) (ip : Option String) (now : Nat) :
    LikeResult × Db :=
  if product_id ∉ db.products then (.badRequest, db)
  else if visitor_id = "" then (.badRequest, db)
  else
    match ensure_visitor_profile_for_request geo db visitor_id ip now with
    | (none, db1) => (.badRequest, db1)
    | (some _, db1) =>
      if likesFor db1 visitor_id product_id ≠ [] then
        let db2 := { db1 with likes := db1.likes.filter (fun l => ¬(l.visitor_id = visitor_id ∧ l.product_id = product_id)) }
        (.ok false (likeCount db2 product_id), db2)
      else
        let nl : ProductLike :=
          { id := db1.nextLikeId, visitor_id := visitor_id, product_id := product_id, created_at := now }
        let db2 := { db1 with likes := nl :: db1.likes, nextLikeId := db1.nextLikeId + 1 }
        (.ok true (likeCount db2 product_id), db2)

/-! ## Sorting infrastructure

The SQL `ORDER BY` clauses are embedded as an insertion sort over a decidable
total relation; `AdjSorted` states that adjacent elements of a list stand in
the relation. -/

/-- Insert `x` into `l` before the first element `y` with `r x y`. -/
def ordInsertR {α : Type} (r : α → α → Prop) [DecidableRel r] (x : α) :
    List α → List α
  | [] => [x]
  | y :: ys => if r x y then x :: y :: ys else y :: ordInsertR r x ys

/-- Insertion sort by the relation `r`. -/
def sortR {α : Type} (r : α → α → Prop) [DecidableRel r] : List α → List α
  | [] => []
  | x :: xs => ordInsertR r x (sortR r xs)

/-- Adjacent-pair ordering: every element is `r`-related to its successor. -/
def AdjSorted {α : Type} (r : α → α → Prop) : List α → Prop
  | [] => True
  | [_] => True
  | x :: y :: rest => r x y ∧ AdjSorted r (y :: rest)

/-! ## RankingEngine: popular products (catalog/views.py, PopularProductsAPIView.get) -/

/-- One row of the popularity aggregation.  Because `country` and `city`
appear in the query's `order_by`, Django adds them (and the `location_priority`
`Case` expression) to the `GROUP BY`; the effective group key is therefore
`(product, country, city)`, which this structure records. -/
structure PopEntry where
  product_id : String
  country : Option String
  city : Option String
  view_count : Nat
  last_viewed_at : Nat
  location_priority : Nat
deriving DecidableEq, Repr

/-- The `Case/When` expression: 2 for the visitor's exact country and city,
1 for the visitor's country, else 0 (SQL `=` against a `None` parameter is
rendered by Django as `IS NULL`, which `Option` equality mirrors). -/
def casePriority (vCountry vCity c ci : Option String) : Nat :=
  if c = vCountry ∧ ci = vCity then 2
  else if c = vCountry then 1
  else 0

/-- `ProductView.objects.filter(viewed_at__gte=since)`. -/
def windowViews (db : Db) (since : Nat) : List ProductView :=
  db.views.filter (fun w => since ≤ w.viewed_at)

/-- Resolution of the requesting visitor's `(country, city)`; an absent or
unknown `visitor_id` degrades to `(None, None)`. -/
def visitorLoc (db : Db) (visitor_id : Option String) : Option String × Option String :=
  match visitor_id with
  | none => (none, none)
  | some vid =>
    match findProfile db vid with
    | none => (none, none)
    | some v => (v.country, v.city)

/-- Ordering of aggregation rows:
`(-location_priority, -view_count, -last_viewed_at, country, city)`. -/
def popLE (a b : PopEntry) : Prop :=
  b.location_priority < a.location_priority ∨
    (b.location_priority = a.location_priority ∧
      (b.view_count < a.view_count ∨
        (b.view_count = a.view_count ∧
          (b.last_viewed_at < a.last_viewed_at ∨
            (b.last_viewed_at = a.last_viewed_at ∧
              (optLt a.country b.country ∨
                (a.country = b.country ∧ optLe a.city b.city)))))))

instance : DecidableRel popLE := fun a b => by
  unfold popLE
  infer_instance

/-- The popularity aggregation of `PopularProductsAPIView.get`: window filter,
group by `(product, country, city)` (see `PopEntry`), annotate count, max
`viewed_at` and the priority tier, sort, and slice to `limit`. -/
def popularAgg (db : Db) (visitor_id : Option String) (since limit : Nat) :
    List PopEntry :=
  let events := windowViews db since
  let vloc := visitorLoc db visitor_id
  let keys := (events.map (fun w => (w.product_id, w.country, w.city))).dedup
  let entries := keys.map (fun k =>
    let g := events.filter (fun w => w.product_id = k.1 ∧ w.country = k.2.1 ∧ w.city = k.2.2)
    { product_id := k.1, country := k.2.1, city := k.2.2,
      view_count := g.length,
      last_viewed_at := (g.map (fun w => w.viewed_at)).foldl max 0,
      location_priority := casePriority vloc.1 vloc.2 k.2.1 k.2.2 : PopEntry })
  (sortR popLE entries).take limit

/-- The ordered product list the endpoint returns: aggregation-row product
ids (in rank order, a product id once per surviving group) restricted to ids
present in the `Product` table. -/
def popularList (db : Db) (visitor_id : Option String) (since limit : Nat) :
    List String :=
  ((popularAgg db visitor_id since limit).map (fun e => e.product_id)).filter
    (fun pid => pid ∈ db.products)

/-! ## RankingEngine: also-viewed (catalog/views.py, AlsoViewedProductsAPIView.get) -/

/-- Ordering of the also-viewed aggregation: `(-view_count, -last_viewed)` on
`(product_id, view_count, last_viewed)` triples. -/
def avLE (a b : String × Nat × Nat) : Prop :=
  b.2.1 < a.2.1 ∨ (b.2.1 = a.2.1 ∧ b.2.2 ≤ a.2.2)

instance : DecidableRel avLE := fun a b => by
  unfold avLE
  infer_instance

/-- `AlsoViewedProductsAPIView.get`: `none` models the 404 for an unknown
product.  Visitors who viewed the product within the period are collected;
their other views in the period are grouped by product (the `order_by` here
uses only annotation aliases, so the group key really is the product),
excluding the product itself and — when a `visitor_id` was supplied and
resolves to a profile — every product that visitor has ever viewed. -/
def alsoViewed (db : Db) (product_id : String) (visitor_id : Option String)
    (since limit : Nat) : Option (List String) :=
  if product_id ∉ db.products then none
  else
    let excluded : Option (List String) :=
      match visitor_id with
      | none => none
      | some vid =>
        match findProfile db vid with
        | none => none
        | some v =>
          some ((db.views.filter (fun w => w.visitor_id = v.visitor_id)).map
            (fun w => w.product_id)).dedup
    let viewers :=
      ((db.views.filter (fun w => w.product_id = product_id ∧ since ≤ w.viewed_at)).map
        (fun w => w.visitor_id)).dedup
    if viewers.isEmpty then some []
    else
      let cand0 := db.views.filter
        (fun w => w.visitor_id ∈ viewers ∧ since ≤ w.viewed_at ∧ w.product_id ≠ product_id)
      let cand :=
        match excluded with
        | none => cand0
        | some ex => cand0.filter (fun w => w.product_id ∉ ex)
      let keys := (cand.map (fun w => w.product_id)).dedup
      let entries := keys.map (fun pid =>
        let g := cand.filter (fun w => w.product_id = pid)
        (pid, g.length, (g.map (fun w => w.viewed_at)).foldl max 0))
      let ranked := (sortR avLE entries).take limit
      some ((ranked.map (fun e => e.1)).filter (fun pid => pid ∈ db.products))

/-! ## OtpAuthority (catalog/utils/otp.py) -/

/-- Row of the `EmailOTP` model (primary key `id`).  The model class itself is
not among the sources; its fields are those read and written by
`create_or_refresh_otp` / `validate_otp` and listed by the spec. -/
structure EmailOTP where
  id : Nat
  email : String
  purpose : String
  code : String
  created_at : Nat
  expires_at : Nat
  used : Bool
  attempt_count : Nat
  max_attempts : Nat
deriving DecidableEq, Repr

/-- Modelled from the spec: the `EmailOTP.is_expired` property is missing from
the sources; per the spec a code "becomes implicitly expired once
`now > expires_at`". -/
def EmailOTP.isExpired (o : EmailOTP) (now : Nat) : Bool := o.expires_at < now

/-- Modelled from the spec: the `EmailOTP.is_locked` property is missing from
the sources; per the spec a code "becomes implicitly locked once
`attempt_count >= max_attempts`". -/
def EmailOTP.isLocked (o : EmailOTP) : Bool := o.max_attempts ≤ o.attempt_count

/-- Machine-readable error kinds of `OTPValidationResult.error_code`. -/
inductive OtpError where
  | invalid_code
  | code_expired
  | too_many_attempts
deriving DecidableEq, Repr

/-- The `(valid, error_code)` part of `OTPValidationResult` (the message text
and the returned instance are presentation detail). -/
structure OtpResult where
  valid : Bool
  error_code : Option OtpError
deriving DecidableEq, Repr

/-- Of two codes, the more recently created one (left biased on ties). -/
def newerOtp (a b : EmailOTP) : EmailOTP :=
  if b.created_at > a.created_at then b else a

/-- `EmailOTP.objects.filter(email=e, purpose=p).order_by("-created_at").first()`
— note: no filter on `used`. -/
def latestOtpFor (store : List EmailOTP) (email purpose : String) :
    Option EmailOTP :=
  match store.filter (fun o => o.email = email ∧ o.purpose = purpose) with
  | [] => none
  | x :: xs => some (xs.foldl newerOtp x)

/-- `otp.save(...)` — replace the row with primary key `o.id`. -/
def saveOtp (store : List EmailOTP) (o : EmailOTP) : List EmailOTP :=
  store.map (fun w => if w.id = o.id then o else w)

/-- `validate_otp(email, purpose, code)` at time `now`, returning the result
together with the updated store.  The branch order is that of the source:
empty inputs, missing record, expiry (marking the code used), lockout,
mismatch (incrementing `attempt_count`), success (marking the code used). -/
def validate_otp (store : List EmailOTP) (email purpose code : String)
    (now : Nat) : OtpResult × List EmailOTP :=
  let nEmail := lowerStr (trimStr email)
  let nCode := trimStr code
  if nEmail = "" ∨ nCode = "" then
    ({ valid := false, error_code := some .invalid_code }, store)
  else
    match latestOtpFor store nEmail purpose with
    | none => ({ valid := false, error_code := some .invalid_code }, store)
    | some o =>
      if o.isExpired now then
        let o1 := if ¬o.used then { o with used := true } else o
        ({ valid := false, error_code := some .code_expired }, saveOtp store o1)
      else if o.isLocked then
        ({ valid := false, error_code := some .too_many_attempts }, store)
      else if o.code ≠ nCode then
        let o1 := { o with attempt_count := o.attempt_count + 1 }
        let store1 := saveOtp store o1
        if o1.isLocked then
          ({ valid := false, error_code := some .too_many_attempts }, store1)
        else
          ({ valid := false, error_code := some .invalid_code }, store1)
      else
        ({ valid := true, error_code := none }, saveOtp store { o with used := true })

/-! ## GeoLookupClient (catalog/utils/geo.py, lookup_location and
lookup_location_from_coords)

A lookup consumes a trace `resp : Nat → HttpOutcome` giving the outcome of
the n-th HTTP request.  Time advances only through the `time.sleep` calls
(each 1 second); the loop re-checks elapsed wall-clock time before every
request and gives up once it exceeds 60 seconds.  For the forward lookup each
retry costs 1 second, so the elapsed check fails from the 62nd iteration on:
the recursion is bounded by 61 remaining iterations.  The reverse lookup
additionally sleeps 1 second before every request after the first, so the
elapsed time at the check of iteration k is 2k-1 and the bound is 31
iterations.  Each function returns its result and the number of HTTP requests
made. -/

/-- Parsed payload of a successful geolocation response, already mapped from
the provider's JSON fields (`none` models a JSON parse failure). -/
structure GeoPayload where
  country : Option String
  city : Option String
  latitude : Option Int
  longitude : Option Int
deriving DecidableEq, Repr

/-- Outcome of one HTTP request: a transport-level `requests.RequestException`,
or a response with its status code and parse result. -/
inductive HttpOutcome where
  | transportFailure
  | response (status : Nat) (parsed : Option GeoPayload)
deriving DecidableEq, Repr

/-- The statuses the source treats as retryable:
`response.status_code in (429, 500, 502, 503, 504)`. -/
def retryStatus (s : Nat) : Bool :=
  s = 429 ∨ s = 500 ∨ s = 502 ∨ s = 503 ∨ s = 504

/-- `requests.Response.ok`: status below 400. -/
def respOk (s : Nat) : Bool := s < 400

/-- The all-`None` "no data" result of the forward lookup. -/
def noGeoData : GeoPayload := ⟨none, none, none, none⟩

/-- Retry loop of `lookup_location`, structurally recursive on the remaining
iterations before the 60-second ceiling trips (61 at the start, one spent per
retry sleep). -/
def lookupLoop (resp : Nat → HttpOutcome) (attempt remaining : Nat) :
    GeoPayload × Nat :=
  match remaining with
  | 0 => (noGeoData, 0)
  | r + 1 =>
    match resp attempt with
    | .transportFailure => (noGeoData, 1)
    | .response s parsed =>
      if retryStatus s then
        let p := lookupLoop resp (attempt + 1) r
        (p.1, p.2 + 1)
      else if respOk s then (parsed.getD noGeoData, 1)
      else (noGeoData, 1)

/-- `lookup_location(ip)`: forward IP geolocation with bounded retry. -/
def lookup_location (ip : String) (resp : Nat → HttpOutcome) : GeoPayload × Nat :=
  if ip = "" then (noGeoData, 0)
  else lookupLoop resp 0 61

/-- Retry loop of `lookup_location_from_coords` with the 403 special case;
the pre-request politeness sleep halves the iteration budget (31). -/
def lookupCoordsLoop (resp : Nat → HttpOutcome) (attempt remaining : Nat) :
    (Option String × Option String) × Nat :=
  match remaining with
  | 0 => ((none, none), 0)
  | r + 1 =>
    match resp attempt with
    | .transportFailure => ((none, none), 1)
    | .response s parsed =>
      if s = 403 then ((none, none), 1)
      else if retryStatus s then
        let p := lookupCoordsLoop resp (attempt + 1) r
        (p.1, p.2 + 1)
      else if respOk s then
        (match parsed with
         | none => (none, none)
         | some d => (d.country, d.city), 1)
      else ((none, none), 1)

/-- `lookup_location_from_coords(latitude, longitude)`: reverse geocoding
with bounded retry. -/
def lookup_location_from_coords (latitude longitude : Option Int)
    (resp : Nat → HttpOutcome) : (Option String × Option String) × Nat :=
  if latitude = none ∨ longitude = none then ((none, none), 0)
  else lookupCoordsLoop resp 0 31

/-! ## GeoBackfillJob (catalog/tasks.py, backfill_location_from_coords) -/

/-- Status component of the task's returned dict. -/
inductive BackfillStatus where
  | skipped
  | done
  | failed
deriving DecidableEq, Repr

/-- The task's returned dict (counts are 0 on skip and on error). -/
structure BackfillOutcome where
  status : BackfillStatus
  processed : Nat
  updatedViews : Nat
  updatedVisitors : Nat
deriving DecidableEq, Repr

/-- Django's missing-location test `Q(x__isnull=True) | Q(x='')`. -/
def missingStr (o : Option String) : Bool := o = none ∨ o = some ""

/-- The queryset `views_with_coords`: events with both coordinates present
and country or city missing. -/
def viewNeedsFix (w : ProductView) : Bool :=
  w.latitude ≠ none ∧ w.longitude ≠ none ∧ (missingStr w.country ∨ missingStr w.city)

/-- Per-pair body of the backfill loop: reverse-geocode one coordinate pair
and bulk-update the events (re-evaluating the lazy `views_with_coords`
queryset against the current store) and the visitor profiles that carry
exactly this pair and still miss a field.  `update_data` only carries truthy
components, and the whole pair is skipped when both are falsy. -/
def backfillPair (geo : Int × Int → Option String × Option String)
    (acc : Db × Nat × Nat) (c : Int × Int) : Db × Nat × Nat :=
  let db := acc.1
  let uViews := acc.2.1
  let uVisitors := acc.2.2
  let r := geo c
  let country := r.1
  let city := r.2
  if ¬strTruthy country ∧ ¬strTruthy city then acc
  else
    let nViews := (db.views.filter (fun w =>
      viewNeedsFix w ∧ w.latitude = some c.1 ∧ w.longitude = some c.2)).length
    let views1 := db.views.map (fun w =>
      if viewNeedsFix w ∧ w.latitude = some c.1 ∧ w.longitude = some c.2 then
        { w with country := if strTruthy country then country else w.country,
                 city := if strTruthy city then city else w.city }
      else w)
    let nVisitors := (db.visitors.filter (fun v =>
      v.latitude = some c.1 ∧ v.longitude = some c.2 ∧
        (missingStr v.country ∨ missingStr v.city))).length
    let visitors1 := db.visitors.map (fun v =>
      if v.latitude = some c.1 ∧ v.longitude = some c.2 ∧
          (missingStr v.country ∨ missingStr v.city) then
        { v with country := if strTruthy country then country else v.country,
                 city := if strTruthy city then city else v.city }
      else v)
    ({ db with views := views1, visitors := visitors1 },
      uViews + nViews, uVisitors + nVisitors)

/-- `backfill_location_from_coords`.  Inputs beyond the store: whether the
cache lock is already held (`cache.add` fails), an injected exception for the
body of the outer `try` (`outerRaises`), the reverse-geocode collaborator
`geo` (total — see `lookup_location_from_coords`, which never raises), and an
injected per-pair exception `pairRaises` absorbed by the inner
`try/except/continue`.  Returns the outcome, the resulting store, the number
of `cache.delete(lock_key)` calls, and the number of database queries/updates
issued. -/
def backfill (lockHeld : Bool) (outerRaises : Bool)
    (geo : Int × Int → Option String × Option String)
    (pairRaises : Int × Int → Bool) (db : Db) :
    BackfillOutcome × Db × Nat × Nat :=
  if lockHeld then ({ status := .skipped, processed := 0, updatedViews := 0, updatedVisitors := 0 }, db, 0, 0)
  else if outerRaises then
    ({ status := .failed, processed := 0, updatedViews := 0, updatedVisitors := 0 }, db, 1, 1)
  else
    let needFix := db.views.filter viewNeedsFix
    if needFix.isEmpty then
      ({ status := .done, processed := 0, updatedViews := 0, updatedVisitors := 0 }, db, 1, 1)
    else
      let coords := (needFix.map (fun w => (w.latitude.getD 0, w.longitude.getD 0))).dedup
      let step := fun (acc : Db × Nat × Nat) (c : Int × Int) =>
        if pairRaises c then acc else backfillPair geo acc c
      let r := coords.foldl step (db, 0, 0)
      ({ status := .done, processed := coords.length,
         updatedViews := r.2.1, updatedVisitors := r.2.2 },
        r.1, 1, 2 + 2 * coords.length)

/-! ## Generic list lemmas -/

theorem map_id_of {α : Type} (l : List α) (f : α → α) (h : ∀ x ∈ l, f x = x) :
    l.map f = l := by
  induction l with
  | nil => rfl
  | cons a as ih =>
    simp only [List.map_cons]
    rw [h a (by simp), ih (fun x hx => h x (List.mem_cons_of_mem a hx))]

theorem filter_single_mem {α : Type} (l : List α) (p : α → Bool) (e : α)
    (h : l.filter p = [e]) : e ∈ l ∧ p e = true := by
  have he : e ∈ l.filter p := by rw [h]; exact List.mem_singleton_self e
  exact List.mem_filter.mp he

theorem filter_map_single {α : Type} (l : List α) (p : α → Bool) (g : α → α) (e : α)
    (h : l.filter p = [e])
    (hg1 : ∀ x ∈ l, p x = false → g x = x)
    (hg2 : ∀ x ∈ l, p (g x) = p x) :
    (l.map g).filter p = [g e] := by
  induction l with
  | nil => simp at h
  | cons a as ih =>
    by_cases ha : p a = true
    · rw [List.filter_cons_of_pos ha] at h
      injection h with h1 h2
      subst h1
      simp only [List.map_cons]
      rw [List.filter_cons_of_pos (by rw [hg2 a (by simp)]; exact ha)]
      have hall : ∀ x ∈ as, p x = false := by
        intro x hx
        simpa using List.filter_eq_nil_iff.mp h2 x hx
      rw [map_id_of as g (fun x hx => hg1 x (List.mem_cons_of_mem a hx) (hall x hx))]
      rw [h2]
    · have ha2 : p a = false := by simpa using ha
      rw [List.filter_cons_of_neg (by simp [ha2])] at h
      simp only [List.map_cons]
      rw [hg1 a (by simp) ha2]
      rw [List.filter_cons_of_neg (by simp [ha2])]
      exact ih h (fun x hx c => hg1 x (List.mem_cons_of_mem a hx) c)
        (fun x hx => hg2 x (List.mem_cons_of_mem a hx))

theorem eq_of_nodup_key {α β : Type} (l : List α) (f : α → β)
    (hn : (l.map f).Nodup) (x e : α) (hx : x ∈ l) (he : e ∈ l)
    (hf : f x = f e) : x = e := by
  induction l with
  | nil => simp at hx
  | cons a as ih =>
    simp only [List.map_cons, List.nodup_cons] at hn
    rcases List.mem_cons.mp hx with rfl | hx2
    · rcases List.mem_cons.mp he with rfl | he2
      · rfl
      · exact absurd (hf ▸ List.mem_map_of_mem f he2) hn.1
    · rcases List.mem_cons.mp he with rfl | he2
      · exact absurd (hf ▸ List.mem_map_of_mem f hx2) hn.1
      · exact ih hn.2 hx2 he2

theorem filter_not_of_filter_nil {α : Type} (l : List α) (p : α → Bool)
    (h : l.filter p = []) : l.filter (fun x => !p x) = l := by
  rw [List.filter_eq_self]
  intro a ha
  have := List.filter_eq_nil_iff.mp h a ha
  simpa using this

/-! ## Projection lemmas for the store operations -/

theorem saveProfile_views (db : Db) (p : VisitorProfile) :
    (saveProfile db p).views = db.views := rfl

theorem saveProfile_likes (db : Db) (p : VisitorProfile) :
    (saveProfile db p).likes = db.likes := rfl

theorem saveProfile_products (db : Db) (p : VisitorProfile) :
    (saveProfile db p).products = db.products := rfl

theorem saveProfile_nextViewId (db : Db) (p : VisitorProfile) :
    (saveProfile db p).nextViewId = db.nextViewId := rfl

theorem saveProfile_nextLikeId (db : Db) (p : VisitorProfile) :
    (saveProfile db p).nextLikeId = db.nextLikeId := rfl

theorem ensureCore_views (db : Db) (vid : String) (ip : Option String) (now : Nat) :
    (ensureCore db vid ip now).2.views = db.views := by
  unfold ensureCore
  cases h : findProfile db vid <;> simp only [h] <;> rfl

theorem ensureCore_likes (db : Db) (vid : String) (ip : Option String) (now : Nat) :
    (ensureCore db vid ip now).2.likes = db.likes := by
  unfold ensureCore
  cases h : findProfile db vid <;> simp only [h] <;> rfl

theorem ensureCore_products (db : Db) (vid : String) (ip : Option String) (now : Nat) :
    (ensureCore db vid ip now).2.products = db.products := by
  unfold ensureCore
  cases h : findProfile db vid <;> simp only [h] <;> rfl

theorem ensureCore_nextViewId (db : Db) (vid : String) (ip : Option String) (now : Nat) :
    (ensureCore db vid ip now).2.nextViewId = db.nextViewId := by
  unfold ensureCore
  cases h : findProfile db vid <;> simp only [h] <;> rfl

theorem ensureCore_nextLikeId (db : Db) (vid : String) (ip : Option String) (now : Nat) :
    (ensureCore db vid ip now).2.nextLikeId = db.nextLikeId := by
  unfold ensureCore
  cases h : findProfile db vid <;> simp only [h] <;> rfl

theorem ensure_eq (geo : String → Option (String × String × Int × Int))
    (db : Db) (vid : String) (ip : Option String) (now : Nat) (hv : vid ≠ "") :
    ensure_visitor_profile_for_request geo db vid ip now =
      (some (ensureCore db vid ip now).1, (ensureCore db vid ip now).2) := by
  unfold ensure_visitor_profile_for_request
  rw [if_neg hv]

theorem applyRepeatView_id (e : ProductView) (la lo : Option Int) (t : Nat) :
    (applyRepeatView e la lo t).id = e.id := by
  simp only [applyRepeatView]
  split_ifs <;> rfl

theorem applyRepeatView_visitor (e : ProductView) (la lo : Option Int) (t : Nat) :
    (applyRepeatView e la lo t).visitor_id = e.visitor_id := by
  simp only [applyRepeatView]
  split_ifs <;> rfl

theorem applyRepeatView_product (e : ProductView) (la lo : Option Int) (t : Nat) :
    (applyRepeatView e la lo t).product_id = e.product_id := by
  simp only [applyRepeatView]
  split_ifs <;> rfl

theorem applyRepeatView_viewed (e : ProductView) (la lo : Option Int) (t : Nat) :
    (applyRepeatView e la lo t).viewed_at = t := by
  simp only [applyRepeatView]
  split_ifs <;> rfl

theorem applyRepeatView_coords (e : ProductView) (a b : Int) (t : Nat) :
    (applyRepeatView e (some a) (some b) t).latitude = some a ∧
      (applyRepeatView e (some a) (some b) t).longitude = some b := by
  unfold applyRepeatView
  by_cases hla : e.latitude = some a <;> by_cases hlo : e.longitude = some b <;>
    simp [hla, hlo]

theorem applyRepeatView_cleared (e : ProductView) (a b : Int) (t : Nat)
    (h : e.latitude ≠ some a ∨ e.longitude ≠ some b) :
    (applyRepeatView e (some a) (some b) t).country = none ∧
      (applyRepeatView e (some a) (some b) t).city = none := by
  unfold applyRepeatView
  rcases h with h | h
  · by_cases hlo : e.longitude = some b <;> simp [h, hlo]
  · by_cases hla : e.latitude = some a <;> simp [h, hla]

theorem applyRepeatView_kept (e : ProductView) (la lo : Option Int) (t : Nat)
    (hla : e.latitude = la) (hlo : e.longitude = lo) :
    (applyRepeatView e la lo t).country = e.country ∧
      (applyRepeatView e la lo t).city = e.city := by
  unfold applyRepeatView
  simp [hla, hlo]

theorem latestView_single (db : Db) (vid pid : String) (e : ProductView)
    (he : viewsFor db vid pid = [e]) : latestViewFor db vid pid = some e := by
  unfold latestViewFor
  rw [he]
  rfl

theorem latestView_empty (db : Db) (vid pid : String)
    (h0 : viewsFor db vid pid = []) : latestViewFor db vid pid = none := by
  unfold latestViewFor
  rw [h0]

/-- Behaviour of the tracking POST when an event for the pair already exists
(the duplicate/upsert path), stated component-wise. -/
theorem recordView_existing (geo : String → Option (String × String × Int × Int))
    (db : Db) (product_id visitor_id : String) (lat lon : Option Int)
    (ip : Option String) (now : Nat) (e : ProductView)
    (hp : product_id ∈ db.products) (hv : visitor_id ≠ "")
    (he : viewsFor db visitor_id product_id = [e]) :
    (recordView geo db product_id visitor_id lat lon ip now).1 = .ok true ∧
    (recordView geo db product_id visitor_id lat lon ip now).2.views =
      db.views.map (fun w => if w.id = e.id then applyRepeatView e lat lon now else w) ∧
    (recordView geo db product_id visitor_id lat lon ip now).2.likes = db.likes ∧
    (recordView geo db product_id visitor_id lat lon ip now).2.products = db.products ∧
    (recordView geo db product_id visitor_id lat lon ip now).2.nextViewId = db.nextViewId ∧
    (recordView geo db product_id visitor_id lat lon ip now).2.nextLikeId = db.nextLikeId := by
  have hlat : ∀ vp : VisitorProfile,
      latestViewFor (saveProfile (ensureCore db visitor_id ip now).2 vp)
        visitor_id product_id = some e := by
    intro vp
    apply latestView_single
    unfold viewsFor at he ⊢
    rw [saveProfile_views, ensureCore_views]
    exact he
  unfold recordView
  rw [if_neg (not_not_intro hp), if_neg hv, ensure_eq geo db visitor_id ip now hv]
  dsimp only
  rw [hlat]
  dsimp only
  simp only [saveProfile_views, ensureCore_views, saveProfile_likes, ensureCore_likes,
    saveProfile_products, ensureCore_products, saveProfile_nextViewId, ensureCore_nextViewId,
    saveProfile_nextLikeId, ensureCore_nextLikeId]
  simp

/-- Behaviour of the tracking POST when no event for the pair exists yet
(the insert path), stated component-wise. -/
theorem recordView_new (geo : String → Option (String × String × Int × Int))
    (db : Db) (product_id visitor_id : String) (lat lon : Option Int)
    (ip : Option String) (now : Nat)
    (hp : product_id ∈ db.products) (hv : visitor_id ≠ "")
    (h0 : viewsFor db visitor_id product_id = []) :
    (recordView geo db product_id visitor_id lat lon ip now).1 = .ok false ∧
    (∃ co ci,
      (recordView geo db product_id visitor_id lat lon ip now).2.views =
        { id := db.nextViewId, visitor_id := visitor_id, product_id := product_id,
          viewed_at := now, country := co, city := ci,
          latitude := lat, longitude := lon : ProductView } :: db.views) ∧
    (recordView geo db product_id visitor_id lat lon ip now).2.likes = db.likes ∧
    (recordView geo db product_id visitor_id lat lon ip now).2.products = db.products ∧
    (recordView geo db product_id visitor_id lat lon ip now).2.nextViewId = db.nextViewId + 1 ∧
    (recordView geo db product_id visitor_id lat lon ip now).2.nextLikeId = db.nextLikeId := by
  have hlat : ∀ vp : VisitorProfile,
      latestViewFor (saveProfile (ensureCore db visitor_id ip now).2 vp)
        visitor_id product_id = none := by
    intro vp
    apply latestView_empty
    unfold viewsFor at h0 ⊢
    rw [saveProfile_views, ensureCore_views]
    exact h0
  unfold recordView
  rw [if_neg (not_not_intro hp), if_neg hv, ensure_eq geo db visitor_id ip now hv]
  dsimp only
  rw [hlat]
  dsimp only
  simp only [saveProfile_views, ensureCore_views, saveProfile_likes, ensureCore_likes,
    saveProfile_products, ensureCore_products, saveProfile_nextViewId, ensureCore_nextViewId,
    saveProfile_nextLikeId, ensureCore_nextLikeId]
  refine ⟨by simp, ⟨_, _, rfl⟩, by simp, by simp, by simp, by simp⟩

/-- C1: calling `recordView(v, p)` twice in immediate succession, starting
from a store with no event for the pair, yields `duplicate=false` then
`duplicate=true`, and leaves exactly one stored event for `(v, p)` — the row
created by the first call (same primary key), with its `viewed_at` refreshed
to the second call's time rather than a second row being inserted. -/
theorem recordView_idempotent_pair
    (geo : String → Option (String × String × Int × Int)) (db : Db)
    (v p : String) (lat lon lat2 lon2 : Option Int) (ip ip2 : Option String)
    (t1 t2 : Nat)
    (hfresh : ∀ w ∈ db.views, w.id < db.nextViewId)
    (hp : p ∈ db.products) (hv : v ≠ "")
    (h0 : viewsFor db v p = []) :
    (recordView geo db p v lat lon ip t1).1 = .ok false ∧
    (recordView geo (recordView geo db p v lat lon ip t1).2 p v lat2 lon2 ip2 t2).1
      = .ok true ∧
    ∃ e, viewsFor
        (recordView geo (recordView geo db p v lat lon ip t1).2 p v lat2 lon2 ip2 t2).2
        v p = [e] ∧ e.id = db.nextViewId ∧ e.viewed_at = t2 := by
  obtain ⟨hr1, ⟨co, ci, hviews1⟩, hlikes1, hprod1, hnext1, hnl1⟩ :=
    recordView_new geo db p v lat lon ip t1 hp hv h0
  set db1 := (recordView geo db p v lat lon ip t1).2 with hdb1
  set w : ProductView :=
    { id := db.nextViewId, visitor_id := v, product_id := p, viewed_at := t1,
      country := co, city := ci, latitude := lat, longitude := lon } with hw
  have hv1 : viewsFor db1 v p = [w] := by
    unfold viewsFor
    rw [hviews1]
    rw [List.filter_cons_of_pos (by simp [hw])]
    unfold viewsFor at h0
    rw [h0]
  have hp1 : p ∈ db1.products := by rw [hprod1]; exact hp
  obtain ⟨hr2, hviews2, _, _, _, _⟩ :=
    recordView_existing geo db1 p v lat2 lon2 ip2 t2 w hp1 hv hv1
  refine ⟨hr1, hr2, applyRepeatView w lat2 lon2 t2, ?_, ?_, ?_⟩
  · have hmap : db.views.map
        (fun x => if x.id = w.id then applyRepeatView w lat2 lon2 t2 else x) = db.views := by
      apply map_id_of
      intro x hx
      rw [if_neg]
      intro hid
      rw [hw] at hid
      exact Nat.ne_of_lt (hfresh x hx) hid
    unfold viewsFor
    rw [hviews2, hviews1, List.map_cons, if_pos rfl, hmap]
    rw [List.filter_cons_of_pos
      (by simp [applyRepeatView_visitor, applyRepeatView_product, hw])]
    unfold viewsFor at h0
    rw [h0]
  · rw [applyRepeatView_id, hw]
  · exact applyRepeatView_viewed w lat2 lon2 t2

/-- C6: a repeat `recordView` of an existing `(visitor, product)` event with
supplied coordinates overwrites the stored lat/lon and clears the event's
country/city snapshot when either coordinate differs from the stored one,
and leaves country/city unchanged when both supplied coordinates equal the
stored ones. -/
theorem recordView_stale_snapshot
    (geo : String → Option (String × String × Int × Int)) (db : Db)
    (v p : String) (a b : Int) (ip : Option String) (t : Nat) (e : ProductView)
    (hnodup : (db.views.map (fun w => w.id)).Nodup)
    (hp : p ∈ db.products) (hv : v ≠ "")
    (he : viewsFor db v p = [e]) :
    (recordView geo db p v (some a) (some b) ip t).1 = .ok true ∧
    viewsFor (recordView geo db p v (some a) (some b) ip t).2 v p
      = [applyRepeatView e (some a) (some b) t] ∧
    ((e.latitude ≠ some a ∨ e.longitude ≠ some b) →
      (applyRepeatView e (some a) (some b) t).latitude = some a ∧
      (applyRepeatView e (some a) (some b) t).longitude = some b ∧
      (applyRepeatView e (some a) (some b) t).country = none ∧
      (applyRepeatView e (some a) (some b) t).city = none) ∧
    (e.latitude = some a → e.longitude = some b →
      (applyRepeatView e (some a) (some b) t).country = e.country ∧
      (applyRepeatView e (some a) (some b) t).city = e.city) := by
  have he2 := filter_single_mem _ _ _ (by unfold viewsFor at he; exact he :
    db.views.filter (fun w => w.visitor_id = v ∧ w.product_id = p) = [e])
  obtain ⟨hr, hviews, _, _, _, _⟩ :=
    recordView_existing geo db p v (some a) (some b) ip t e hp hv he
  refine ⟨hr, ?_, fun hd =>
      ⟨(applyRepeatView_coords e a b t).1, (applyRepeatView_coords e a b t).2,
       (applyRepeatView_cleared e a b t hd).1, (applyRepeatView_cleared e a b t hd).2⟩,
    fun h1 h2 => applyRepeatView_kept e (some a) (some b) t h1 h2⟩
  unfold viewsFor
  rw [hviews]
  refine (filter_map_single db.views _
    (fun w => if w.id = e.id then applyRepeatView e (some a) (some b) t else w) e
    ?_ ?_ ?_).trans (by simp)
  · unfold viewsFor at he
    exact he
  · intro x hx hpx
    dsimp only
    rw [if_neg]
    intro hid
    have hxe : x = e := eq_of_nodup_key db.views (fun w => w.id) hnodup x e hx he2.1 hid
    rw [hxe, he2.2] at hpx
    simp at hpx
  · intro x hx
    dsimp only
    by_cases hid : x.id = e.id
    · have hxe : x = e := eq_of_nodup_key db.views (fun w => w.id) hnodup x e hx he2.1 hid
      subst hxe
      rw [if_pos hid]
      simp [applyRepeatView_visitor, applyRepeatView_product]
    · rw [if_neg hid]

/-- Behaviour of the like toggle when no like row exists for the pair (the
like path), stated component-wise. -/
theorem toggleLike_create (geo : String → Option (String × String × Int × Int))
    (db : Db) (product_id visitor_id : String) (ip : Option String) (now : Nat)
    (hp : product_id ∈ db.products) (hv : visitor_id ≠ "")
    (h0 : likesFor db visitor_id product_id = []) :
    (toggleLike geo db product_id visitor_id ip now).1 =
      .ok true (likeCount (toggleLike geo db product_id visitor_id ip now).2 product_id) ∧
    (toggleLike geo db product_id visitor_id ip now).2.likes =
      { id := db.nextLikeId, visitor_id := visitor_id, product_id := product_id,
        created_at := now : ProductLike } :: db.likes ∧
    (toggleLike geo db product_id visitor_id ip now).2.products = db.products ∧
    (toggleLike geo db product_id visitor_id ip now).2.views = db.views := by
  have hlf : likesFor (ensureCore db visitor_id ip now).2 visitor_id product_id
      = likesFor db visitor_id product_id := by
    unfold likesFor
    rw [ensureCore_likes]
  unfold toggleLike
  rw [if_neg (not_not_intro hp), if_neg hv, ensure_eq geo db visitor_id ip now hv]
  dsimp only
  rw [hlf, h0, if_neg (not_not_intro rfl)]
  dsimp only
  simp only [saveProfile_likes, ensureCore_likes, saveProfile_products, ensureCore_products,
    saveProfile_views, ensureCore_views, saveProfile_nextLikeId, ensureCore_nextLikeId]
  simp

/-- Behaviour of the like toggle when a like row exists for the pair (the
unlike path), stated component-wise. -/
theorem toggleLike_delete (geo : String → Option (String × String × Int × Int))
    (db : Db) (product_id visitor_id : String) (ip : Option String) (now : Nat)
    (hp : product_id ∈ db.products) (hv : visitor_id ≠ "")
    (h1 : likesFor db visitor_id product_id ≠ []) :
    (toggleLike geo db product_id visitor_id ip now).1 =
      .ok false (likeCount (toggleLike geo db product_id visitor_id ip now).2 product_id) ∧
    (toggleLike geo db product_id visitor_id ip now).2.likes =
      db.likes.filter (fun l => ¬(l.visitor_id = visitor_id ∧ l.product_id = product_id)) ∧
    (toggleLike geo db product_id visitor_id ip now).2.products = db.products ∧
    (toggleLike geo db product_id visitor_id ip now).2.views = db.views := by
  have hlf : likesFor (ensureCore db visitor_id ip now).2 visitor_id product_id
      = likesFor db visitor_id product_id := by
    unfold likesFor
    rw [ensureCore_likes]
  unfold toggleLike
  rw [if_neg (not_not_intro hp), if_neg hv, ensure_eq geo db visitor_id ip now hv]
  dsimp only
  rw [hlf, if_pos h1]
  dsimp only
  simp only [saveProfile_likes, ensureCore_likes, saveProfile_products, ensureCore_products,
    saveProfile_views, ensureCore_views]
  simp

/-- C10: toggling a like twice in immediate succession from the unliked state
restores the original state — the second call returns `liked=false` together
with the pre-call `like_count`, and the set of like rows for the pair (and
the product's like count) is back to what it was before the first call. -/
theorem toggleLike_twice_restores
    (geo : String → Option (String × String × Int × Int)) (db : Db)
    (v p : String) (ip ip2 : Option String) (t1 t2 : Nat)
    (hp : p ∈ db.products) (hv : v ≠ "")
    (h0 : likesFor db v p = []) :
    (toggleLike geo (toggleLike geo db p v ip t1).2 p v ip2 t2).1
      = .ok false (likeCount db p) ∧
    likesFor (toggleLike geo (toggleLike geo db p v ip t1).2 p v ip2 t2).2 v p
      = likesFor db v p ∧
    likeCount (toggleLike geo (toggleLike geo db p v ip t1).2 p v ip2 t2).2 p
      = likeCount db p := by
  obtain ⟨hr1, hlikes1, hprod1, _⟩ := toggleLike_create geo db p v ip t1 hp hv h0
  set db1 := (toggleLike geo db p v ip t1).2 with hdb1
  set nl : ProductLike :=
    { id := db.nextLikeId, visitor_id := v, product_id := p, created_at := t1 } with hnl
  have hlf1 : likesFor db1 v p = [nl] := by
    unfold likesFor
    rw [hlikes1]
    rw [List.filter_cons_of_pos (by simp [hnl])]
    unfold likesFor at h0
    rw [h0]
  have hne : likesFor db1 v p ≠ [] := by
    rw [hlf1]
    simp
  have hp1 : p ∈ db1.products := by rw [hprod1]; exact hp
  obtain ⟨hr2, hlikes2, _, _⟩ := toggleLike_delete geo db1 p v ip2 t2 hp1 hv hne
  have hlikes_back : (toggleLike geo db1 p v ip2 t2).2.likes = db.likes := by
    rw [hlikes2, hlikes1]
    rw [List.filter_cons_of_neg (by simp [hnl])]
    have := filter_not_of_filter_nil db.likes
      (fun l => decide (l.visitor_id = v ∧ l.product_id = p))
      (by unfold likesFor at h0; exact h0)
    simpa [decide_not] using this
  refine ⟨?_, ?_, ?_⟩
  · rw [hr2]
    unfold likeCount
    rw [hlikes_back]
  · unfold likesFor
    rw [hlikes_back]
  · unfold likeCount
    rw [hlikes_back]

/-- C2: precedence of the OTP validation checks, for the most recent stored
code of the pair: an expired code yields `code_expired` (and is marked used)
whatever the submitted value; an unexpired locked code yields
`too_many_attempts` even for the correct value; an unexpired, unlocked,
matching code succeeds. -/
theorem validate_otp_precedence
    (store : List EmailOTP) (email purpose code : String) (now : Nat) (o : EmailOTP)
    (hmail : lowerStr (trimStr email) ≠ "")
    (hcode : trimStr code ≠ "")
    (ho : latestOtpFor store (lowerStr (trimStr email)) purpose = some o) :
    (o.isExpired now = true →
      (validate_otp store email purpose code now).1
        = { valid := false, error_code := some .code_expired } ∧
      ∀ w ∈ (validate_otp store email purpose code now).2, w.id = o.id → w.used = true) ∧
    (o.isExpired now = false → o.isLocked = true →
      (validate_otp store email purpose code now).1
        = { valid := false, error_code := some .too_many_attempts }) ∧
    (o.isExpired now = false → o.isLocked = false → o.code = trimStr code →
      (validate_otp store email purpose code now).1
        = { valid := true, error_code := none }) := by
  unfold validate_otp
  rw [if_neg (by simp [hmail, hcode])]
  dsimp only
  rw [ho]
  dsimp only
  refine ⟨?_, ?_, ?_⟩
  · intro hexp
    rw [if_pos (by simp [hexp])]
    have ho1id : (if ¬o.used = true then { o with used := true } else o).id = o.id := by
      by_cases h : o.used = true <;> simp [h]
    have ho1used : (if ¬o.used = true then { o with used := true } else o).used = true := by
      by_cases h : o.used = true <;> simp [h]
    refine ⟨rfl, ?_⟩
    simp only [saveOtp, ho1id]
    intro w hw hwid
    obtain ⟨u, hu, rfl⟩ := List.mem_map.mp hw
    by_cases hid : u.id = o.id
    · rw [if_pos hid]
      exact ho1used
    · rw [if_neg hid] at hwid
      exact absurd hwid hid
  · intro hexp hlock
    rw [if_neg (by simp [hexp]), if_pos (by simp [hlock])]
  · intro hexp hlock hcodeEq
    rw [if_neg (by simp [hexp]), if_neg (by simp [hlock]),
      if_neg (not_not_intro hcodeEq)]

/-- Concrete geolocation collaborators for witnesses: one that always fails
and one that always succeeds with a fixed location. -/
def geoNone : String → Option (String × String × Int × Int) := fun _ => none

/-- A lookup collaborator that always returns a rich result (used to show a
result cannot depend on it). -/
def geoRich : String → Option (String × String × Int × Int) :=
  fun _ => some ("Wonderland", "Oz", 1, 2)

/-- A fresh, valid, unused stored code for `("e", "signup")`. -/
def exampleOtp : EmailOTP :=
  { id := 1, email := "e", purpose := "signup", code := "1234", created_at := 0,
    expires_at := 100, used := false, attempt_count := 0, max_attempts := 5 }

/-- C3: evaluation at the failing input.  Starting from a single fresh code,
a first `validate_otp` with the correct value succeeds and marks the code
used; yet a second `validate_otp` for the same pair and the same code, still
unexpired and below the attempt limit, succeeds again — the query does not
filter on `used` and no used-check precedes the match, so Used is not
terminal, contradicting the claim and the function's own docstring. -/
theorem validate_otp_reuse_of_used_code :
    (validate_otp [exampleOtp] "e" "signup" "1234" 1).1.valid = true ∧
    (∀ w ∈ (validate_otp [exampleOtp] "e" "signup" "1234" 1).2, w.used = true) ∧
    (validate_otp (validate_otp [exampleOtp] "e" "signup" "1234" 1).2
        "e" "signup" "1234" 2).1.valid = true := by
  decide

/-- A store with one profile that lacks country/city and was last seen from
IP 1.1.1.1. -/
def exampleProfile5 : VisitorProfile :=
  { visitor_id := "v1", first_seen := 0, last_seen := 0, last_ip := some "1.1.1.1",
    country := none, city := none, latitude := none, longitude := none }

/-- Store holding just `exampleProfile5`. -/
def exampleDb5 : Db :=
  { visitors := [exampleProfile5], views := [], likes := [], products := [],
    nextViewId := 0, nextLikeId := 0 }

/-- C5: evaluation at the failing input.  A request for an existing profile
from a new client IP does update `last_ip`, but no forward geolocation lookup
is ever invoked — whatever the lookup collaborator `geo` would return (even
`geoRich`), country, city, latitude and longitude stay null, contradicting
the claim and the function's own docstring. -/
theorem ensure_never_geolocates
    (geo : String → Option (String × String × Int × Int)) :
    ((ensure_visitor_profile_for_request geo exampleDb5 "v1" (some "2.2.2.2") 7).1.map
        (fun q => (q.last_ip, q.country, q.city, q.latitude, q.longitude)))
      = some (some "2.2.2.2", none, none, none, none) ∧
    (ensure_visitor_profile_for_request geo exampleDb5 "v1" (some "2.2.2.2") 7).2.visitors.map
        (fun q => (q.last_ip, q.country, q.city, q.latitude, q.longitude))
      = [(some "2.2.2.2", none, none, none, none)] := by
  exact ⟨rfl, rfl⟩

/-- Closed instance of `ensure_never_geolocates` at the always-succeeding
lookup collaborator. -/
theorem ensure_never_geolocates_witness :
    ((ensure_visitor_profile_for_request geoRich exampleDb5 "v1" (some "2.2.2.2") 7).1.map
        (fun q => (q.last_ip, q.country, q.city, q.latitude, q.longitude)))
      = some (some "2.2.2.2", none, none, none, none) ∧
    (ensure_visitor_profile_for_request geoRich exampleDb5 "v1" (some "2.2.2.2") 7).2.visitors.map
        (fun q => (q.last_ip, q.country, q.city, q.latitude, q.longitude))
      = [(some "2.2.2.2", none, none, none, none)] :=
  ensure_never_geolocates geoRich

/-- C9: the backfill task either fails to acquire the lock — and then touches
nothing (store unchanged, zero database operations, zero lock releases) and
returns the skip indicator — or acquires it and releases it exactly once, on
the empty path, the normal path and the error path alike. -/
theorem backfill_lock_discipline (lockHeld outerRaises : Bool)
    (geo : Int × Int → Option String × Option String)
    (pairRaises : Int × Int → Bool) (db : Db) :
    (lockHeld = true →
      backfill lockHeld outerRaises geo pairRaises db =
        ({ status := .skipped, processed := 0, updatedViews := 0, updatedVisitors := 0 },
          db, 0, 0)) ∧
    (lockHeld = false →
      (backfill lockHeld outerRaises geo pairRaises db).2.2.1 = 1) := by
  constructor
  · intro h
    subst h
    rfl
  · intro h
    subst h
    unfold backfill
    rw [if_neg (by simp)]
    by_cases ho : outerRaises = true
    · rw [if_pos ho]
    · rw [if_neg ho]
      by_cases hn : (db.views.filter viewNeedsFix).isEmpty = true
      · rw [if_pos hn]
      · rw [if_neg hn]

/-- Closed instance of the lock discipline at concrete inputs: a held lock
skips with no store access, a free lock on `exampleDb5` releases once. -/
theorem backfill_lock_discipline_witness :
    backfill true false (fun _ => (none, none)) (fun _ => false) exampleDb5 =
      ({ status := .skipped, processed := 0, updatedViews := 0, updatedVisitors := 0 },
        exampleDb5, 0, 0) ∧
    (backfill false false (fun _ => (none, none)) (fun _ => false) exampleDb5).2.2.1 = 1 :=
  ⟨(backfill_lock_discipline true false (fun _ => (none, none)) (fun _ => false)
      exampleDb5).1 rfl,
   (backfill_lock_discipline false false (fun _ => (none, none)) (fun _ => false)
      exampleDb5).2 rfl⟩

/-! ## Ordering lemmas for the ranking queries -/

theorem charsLt_trichotomy (cs ds : List Char) :
    charsLt cs ds = true ∨ cs = ds ∨ charsLt ds cs = true := by
  induction cs generalizing ds with
  | nil =>
    cases ds with
    | nil => right; left; rfl
    | cons d ds => left; rfl
  | cons c cs ih =>
    cases ds with
    | nil => right; right; rfl
    | cons d ds =>
      rcases lt_trichotomy c d with h | h | h
      · left; simp [charsLt, h]
      · subst h
        rcases ih ds with h2 | h2 | h2
        · left; simp [charsLt, h2]
        · right; left; rw [h2]
        · right; right; simp [charsLt, h2]
      · right; right; simp [charsLt, h]

theorem strLt_trichotomy (s t : String) :
    strLt s t = true ∨ s = t ∨ strLt t s = true := by
  rcases charsLt_trichotomy s.data t.data with h | h | h
  · left; exact h
  · right; left
    cases s with
    | mk sd =>
      cases t with
      | mk td => exact congrArg String.mk h
  · right; right; exact h

theorem optLt_trichotomy (x y : Option String) :
    optLt x y ∨ x = y ∨ optLt y x := by
  cases x with
  | none =>
    cases y with
    | none => right; left; rfl
    | some t => left; trivial
  | some s =>
    cases y with
    | none => right; right; trivial
    | some t =>
      rcases strLt_trichotomy s t with h | h | h
      · left; exact h
      · right; left; rw [h]
      · right; right; exact h

theorem popLE_total (a b : PopEntry) : popLE a b ∨ popLE b a := by
  unfold popLE
  rcases Nat.lt_trichotomy b.location_priority a.location_priority with h1 | h1 | h1
  · left; left; exact h1
  · rcases Nat.lt_trichotomy b.view_count a.view_count with h2 | h2 | h2
    · left; right; exact ⟨h1, Or.inl h2⟩
    · rcases Nat.lt_trichotomy b.last_viewed_at a.last_viewed_at with h3 | h3 | h3
      · left; right; exact ⟨h1, Or.inr ⟨h2, Or.inl h3⟩⟩
      · rcases optLt_trichotomy a.country b.country with h4 | h4 | h4
        · left; right; exact ⟨h1, Or.inr ⟨h2, Or.inr ⟨h3, Or.inl h4⟩⟩⟩
        · rcases optLt_trichotomy a.city b.city with h5 | h5 | h5
          · left; right
            exact ⟨h1, Or.inr ⟨h2, Or.inr ⟨h3, Or.inr ⟨h4, Or.inl h5⟩⟩⟩⟩
          · left; right
            exact ⟨h1, Or.inr ⟨h2, Or.inr ⟨h3, Or.inr ⟨h4, Or.inr h5⟩⟩⟩⟩
          · right; right
            exact ⟨h1.symm, Or.inr ⟨h2.symm, Or.inr ⟨h3.symm, Or.inr ⟨h4.symm, Or.inl h5⟩⟩⟩⟩
        · right; right
          exact ⟨h1.symm, Or.inr ⟨h2.symm, Or.inr ⟨h3.symm, Or.inl h4⟩⟩⟩
      · right; right; exact ⟨h1.symm, Or.inr ⟨h2.symm, Or.inl h3⟩⟩
    · right; right; exact ⟨h1.symm, Or.inl h2⟩
  · right; left; exact h1

theorem avLE_total (a b : String × Nat × Nat) : avLE a b ∨ avLE b a := by
  unfold avLE
  rcases Nat.lt_trichotomy a.2.1 b.2.1 with h1 | h1 | h1
  · right; left; exact h1
  · rcases Nat.le_total b.2.2 a.2.2 with h2 | h2
    · left; right; exact ⟨h1.symm, h2⟩
    · right; right; exact ⟨h1, h2⟩
  · left; left; exact h1

theorem adjSorted_ordInsertR {α : Type} (r : α → α → Prop) [DecidableRel r]
    (total : ∀ a b, r a b ∨ r b a) (x : α) (l : List α)
    (h : AdjSorted r l) : AdjSorted r (ordInsertR r x l) := by
  induction l with
  | nil => trivial
  | cons y ys ih =>
    unfold ordInsertR
    by_cases hxy : r x y
    · rw [if_pos hxy]
      exact ⟨hxy, h⟩
    · rw [if_neg hxy]
      have hyx := (total x y).resolve_left hxy
      cases ys with
      | nil => exact ⟨hyx, trivial⟩
      | cons z zs =>
        have htail : AdjSorted r (ordInsertR r x (z :: zs)) := ih h.2
        unfold ordInsertR
        by_cases hxz : r x z
        · rw [if_pos hxz]
          exact ⟨hyx, hxz, h.2⟩
        · rw [if_neg hxz]
          refine ⟨h.1, ?_⟩
          unfold ordInsertR at htail
          rw [if_neg hxz] at htail
          exact htail

theorem adjSorted_sortR {α : Type} (r : α → α → Prop) [DecidableRel r]
    (total : ∀ a b, r a b ∨ r b a) (l : List α) : AdjSorted r (sortR r l) := by
  induction l with
  | nil => trivial
  | cons x xs ih => exact adjSorted_ordInsertR r total x (sortR r xs) ih

theorem adjSorted_take {α : Type} (r : α → α → Prop) (l : List α) (n : Nat)
    (h : AdjSorted r l) : AdjSorted r (l.take n) := by
  induction l generalizing n with
  | nil => simp [List.take_nil]; trivial
  | cons x xs ih =>
    cases n with
    | zero => trivial
    | succ m =>
      cases xs with
      | nil =>
        cases m <;> trivial
      | cons y ys =>
        cases m with
        | zero => trivial
        | succ k => exact ⟨h.1, ih (k + 1) h.2⟩

theorem mem_ordInsertR {α : Type} (r : α → α → Prop) [DecidableRel r]
    (x a : α) (l : List α) (h : a ∈ ordInsertR r x l) : a = x ∨ a ∈ l := by
  induction l with
  | nil =>
    simp [ordInsertR] at h
    exact Or.inl h
  | cons y ys ih =>
    unfold ordInsertR at h
    by_cases hxy : r x y
    · rw [if_pos hxy] at h
      rcases List.mem_cons.mp h with h2 | h2
      · exact Or.inl h2
      · exact Or.inr h2
    · rw [if_neg hxy] at h
      rcases List.mem_cons.mp h with h2 | h2
      · exact Or.inr (h2 ▸ List.mem_cons_self y ys)
      · rcases ih h2 with h3 | h3
        · exact Or.inl h3
        · exact Or.inr (List.mem_cons_of_mem y h3)

theorem mem_sortR {α : Type} (r : α → α → Prop) [DecidableRel r]
    (a : α) (l : List α) (h : a ∈ sortR r l) : a ∈ l := by
  induction l with
  | nil => simpa [sortR] using h
  | cons x xs ih =>
    unfold sortR at h
    rcases mem_ordInsertR r x a (sortR r xs) h with h2 | h2
    · exact h2 ▸ List.mem_cons_self x xs
    · exact List.mem_cons_of_mem x (ih h2)

/-- Shorthand for a stored view event (coordinates absent, visitor "u"
unless stated). -/
def mkView (i : Nat) (vid pid : String) (t : Nat) (co ci : Option String) :
    ProductView :=
  { id := i, visitor_id := vid, product_id := pid, viewed_at := t,
    country := co, city := ci, latitude := none, longitude := none }

/-- A visitor profile located in NYC, US. -/
def exampleProfileX : VisitorProfile :=
  { visitor_id := "X", first_seen := 0, last_seen := 0, last_ip := none,
    country := some "US", city := some "NYC", latitude := none, longitude := none }

/-- The spec's popularity scenario: product A with 2 views in the visitor's
city, B with 5 views elsewhere in the visitor's country, C with 10 views in
an unrelated country. -/
def exampleDb4 : Db :=
  { visitors := [exampleProfileX],
    views :=
      [mkView 1 "u" "A" 10 (some "US") (some "NYC"),
       mkView 2 "u" "A" 11 (some "US") (some "NYC"),
       mkView 3 "u" "B" 20 (some "US") (some "LA"),
       mkView 4 "u" "B" 21 (some "US") (some "LA"),
       mkView 5 "u" "B" 22 (some "US") (some "LA"),
       mkView 6 "u" "B" 23 (some "US") (some "LA"),
       mkView 7 "u" "B" 24 (some "US") (some "LA"),
       mkView 8 "u" "C" 30 (some "DE") (some "Berlin"),
       mkView 9 "u" "C" 31 (some "DE") (some "Berlin"),
       mkView 10 "u" "C" 32 (some "DE") (some "Berlin"),
       mkView 11 "u" "C" 33 (some "DE") (some "Berlin"),
       mkView 12 "u" "C" 34 (some "DE") (some "Berlin"),
       mkView 13 "u" "C" 35 (some "DE") (some "Berlin"),
       mkView 14 "u" "C" 36 (some "DE") (some "Berlin"),
       mkView 15 "u" "C" 37 (some "DE") (some "Berlin"),
       mkView 16 "u" "C" 38 (some "DE") (some "Berlin"),
       mkView 17 "u" "C" 39 (some "DE") (some "Berlin")],
    likes := [], products := ["A", "B", "C"], nextViewId := 18, nextLikeId := 0 }

/-- A store in which one product has window events in two different cities. -/
def exampleDb4x : Db :=
  { visitors := [exampleProfileX],
    views :=
      [mkView 1 "u" "P" 1 (some "US") (some "NYC"),
       mkView 2 "u" "P" 2 (some "US") (some "NYC"),
       mkView 3 "u" "P" 3 (some "US") (some "LA")],
    likes := [], products := ["P"], nextViewId := 4, nextLikeId := 0 }

/-- C4 counterexample: on `exampleDb4x` the aggregation returns *two* ranked
rows for the single product P — counts 2 and 1, one per (country, city)
group — although P has 3 events in the window, and the endpoint consequently
lists P twice.  The claim's "groups events in the window by product, computes
view_count as the total number of that product's events" is false: `country`
and `city` (being named in `order_by`) and the priority `Case` join the
`GROUP BY`. -/
theorem popular_group_split_counterexample :
    ((popularAgg exampleDb4x (some "X") 0 10).map (fun e => (e.product_id, e.view_count))
      = [("P", 2), ("P", 1)]) ∧
    ((windowViews exampleDb4x 0).filter (fun w => w.product_id = "P")).length = 3 ∧
    popularList exampleDb4x (some "X") 0 10 = ["P", "P"] := by
  decide

/-- C4 (amended): the popularity aggregation groups the window's events by
`(product, country, city)`; each returned row's `view_count` is the number
of window events carrying exactly its `(product, country, city)` triple and
its `location_priority` is the 2/1/0 tier of its own location against the
requesting visitor's; adjacent rows respect the order
`(priority desc, count desc, recency desc, country asc, city asc)`; and on the
spec's A/B/C scenario (each product's events in a single location) the
endpoint returns A, B, C — locality beats raw count. -/
theorem popularAgg_spec (db : Db) (visitor_id : Option String) (since lim : Nat)
    (e : PopEntry) (he : e ∈ popularAgg db visitor_id since lim) :
    (e.view_count = ((windowViews db since).filter (fun w =>
        w.product_id = e.product_id ∧ w.country = e.country ∧ w.city = e.city)).length ∧
     e.location_priority = casePriority (visitorLoc db visitor_id).1
        (visitorLoc db visitor_id).2 e.country e.city) ∧
    AdjSorted popLE (popularAgg db visitor_id since lim) ∧
    popularList exampleDb4 (some "X") 0 10 = ["A", "B", "C"] := by
  refine ⟨?_, ?_, by decide⟩
  · simp only [popularAgg] at he
    have he2 := mem_sortR popLE e _ (List.Sublist.mem he (List.take_sublist lim _))
    obtain ⟨k, hk, rfl⟩ := List.mem_map.mp he2
    exact ⟨rfl, rfl⟩
  · simp only [popularAgg]
    exact adjSorted_take popLE _ lim (adjSorted_sortR popLE popLE_total _)

/-- A visitor profile with no recorded location. -/
def exampleProfileX7 : VisitorProfile :=
  { visitor_id := "X", first_seen := 0, last_seen := 0, last_ip := none,
    country := none, city := none, latitude := none, longitude := none }

/-- A store where visitor X viewed both P and Q. -/
def exampleDb7 : Db :=
  { visitors := [exampleProfileX7],
    views := [mkView 1 "X" "P" 1 none none, mkView 2 "X" "Q" 2 none none],
    likes := [], products := ["P", "Q"], nextViewId := 3, nextLikeId := 0 }

/-- C7: when a `visitor_id` is supplied and resolves to a profile, every
product that visitor has a recorded view of is absent from the also-viewed
results for any product P — even one that would rank first by co-occurrence;
without a `visitor_id` the exclusion does not apply (on `exampleDb7`, Q tops
the anonymous result for P but disappears from X's result). -/
theorem alsoViewed_personal_exclusion
    (db : Db) (P X Q : String) (since lim : Nat) (res : List String)
    (hprof : ∃ v ∈ db.visitors, v.visitor_id = X)
    (hview : ∃ w ∈ db.views, w.visitor_id = X ∧ w.product_id = Q)
    (hres : alsoViewed db P (some X) since lim = some res) :
    Q ∉ res ∧
    alsoViewed exampleDb7 "P" none 0 10 = some ["Q"] ∧
    alsoViewed exampleDb7 "P" (some "X") 0 10 = some [] := by
  refine ⟨?_, by decide, by decide⟩
  obtain ⟨v, hvmem, hvx⟩ := hprof
  obtain ⟨w0, hw0mem, hw0x, hw0q⟩ := hview
  have hsome : (findProfile db X).isSome := by
    unfold findProfile
    rw [List.find?_isSome]
    exact ⟨v, hvmem, by simp [hvx]⟩
  obtain ⟨u, hu⟩ := Option.isSome_iff_exists.mp hsome
  have hux : u.visitor_id = X := by
    have hu2 := hu
    unfold findProfile at hu2
    have h := List.find?_some hu2
    simpa using h
  unfold alsoViewed at hres
  split at hres
  · exact absurd hres (by simp)
  · dsimp only at hres
    rw [hu] at hres
    dsimp only at hres
    split at hres
    · injection hres with h
      rw [← h]
      simp
    · injection hres with h
      rw [← h]
      intro hQ
      have h1 := (List.mem_filter.mp hQ).1
      obtain ⟨en, hen, henq⟩ := List.mem_map.mp h1
      have hen2 := mem_sortR avLE en _ (List.Sublist.mem hen (List.take_sublist lim _))
      obtain ⟨pid, hpid, rfl⟩ := List.mem_map.mp hen2
      dsimp only at henq
      subst henq
      have h2 := List.mem_dedup.mp hpid
      obtain ⟨w, hw, hwq⟩ := List.mem_map.mp h2
      have h3 := List.mem_filter.mp hw
      have hnotex := of_decide_eq_true h3.2
      apply hnotex
      rw [hwq]
      rw [List.mem_dedup]
      refine List.mem_map.mpr ⟨w0, ?_, hw0q⟩
      rw [List.mem_filter]
      refine ⟨hw0mem, ?_⟩
      simp [hw0x, hux]

theorem lookupLoop_requests_le (resp : Nat → HttpOutcome) (attempt remaining : Nat) :
    (lookupLoop resp attempt remaining).2 ≤ remaining := by
  induction remaining generalizing attempt with
  | zero => simp [lookupLoop]
  | succ r ih =>
    unfold lookupLoop
    cases hr : resp attempt with
    | transportFailure => simp
    | response s parsed =>
      dsimp only
      by_cases hs : retryStatus s = true
      · rw [if_pos hs]
        dsimp only
        exact Nat.succ_le_succ (ih (attempt + 1))
      · rw [if_neg hs]
        by_cases hok : respOk s = true
        · rw [if_pos hok]
          simp
        · rw [if_neg hok]
          simp

theorem lookupCoordsLoop_requests_le (resp : Nat → HttpOutcome)
    (attempt remaining : Nat) :
    (lookupCoordsLoop resp attempt remaining).2 ≤ remaining := by
  induction remaining generalizing attempt with
  | zero => simp [lookupCoordsLoop]
  | succ r ih =>
    unfold lookupCoordsLoop
    cases hr : resp attempt with
    | transportFailure => simp
    | response s parsed =>
      dsimp only
      by_cases h403 : s = 403
      · rw [if_pos h403]
        simp
      · rw [if_neg h403]
        by_cases hs : retryStatus s = true
        · rw [if_pos hs]
          dsimp only
          exact Nat.succ_le_succ (ih (attempt + 1))
        · rw [if_neg hs]
          by_cases hok : respOk s = true
          · rw [if_pos hok]
            simp
          · rw [if_neg hok]
            simp

theorem lookupLoop_retry_only (resp : Nat → HttpOutcome) (attempt r : Nat)
    (h2 : 2 ≤ (lookupLoop resp attempt r).2) :
    ∃ s d, resp attempt = .response s d ∧ retryStatus s = true := by
  cases r with
  | zero => simp [lookupLoop] at h2
  | succ r =>
    unfold lookupLoop at h2
    cases hr : resp attempt with
    | transportFailure =>
      rw [hr] at h2
      simp at h2
    | response s parsed =>
      rw [hr] at h2
      dsimp only at h2
      by_cases hs : retryStatus s = true
      · exact ⟨s, parsed, rfl, hs⟩
      · rw [if_neg hs] at h2
        by_cases hok : respOk s = true
        · rw [if_pos hok] at h2
          simp at h2
        · rw [if_neg hok] at h2
          simp at h2

theorem lookupCoordsLoop_retry_only (resp : Nat → HttpOutcome) (attempt r : Nat)
    (h2 : 2 ≤ (lookupCoordsLoop resp attempt r).2) :
    ∃ s d, resp attempt = .response s d ∧ retryStatus s = true := by
  cases r with
  | zero => simp [lookupCoordsLoop] at h2
  | succ r =>
    unfold lookupCoordsLoop at h2
    cases hr : resp attempt with
    | transportFailure =>
      rw [hr] at h2
      simp at h2
    | response s parsed =>
      rw [hr] at h2
      dsimp only at h2
      by_cases h403 : s = 403
      · rw [if_pos h403] at h2
        simp at h2
      · rw [if_neg h403] at h2
        by_cases hs : retryStatus s = true
        · exact ⟨s, parsed, rfl, hs⟩
        · rw [if_neg hs] at h2
          by_cases hok : respOk s = true
          · rw [if_pos hok] at h2
            simp at h2
          · rw [if_neg hok] at h2
            simp at h2

/-- C8 counterexample: 501 is a 5xx status, yet neither lookup retries on it —
each makes exactly one request and returns "no data" immediately, where the
claimed retry-on-5xx policy would keep retrying a constantly-501 upstream
until the 60-second ceiling.  The retryable set is exactly
{429, 500, 502, 503, 504}. -/
theorem lookup_5xx_no_retry_counterexample :
    retryStatus 501 = false ∧ 500 ≤ 501 ∧ 501 < 600 ∧
    lookup_location "1.2.3.4" (fun _ => .response 501 none) = (noGeoData, 1) ∧
    lookup_location_from_coords (some 1) (some 2) (fun _ => .response 501 none)
      = ((none, none), 1) := by
  decide

/-- C8 (amended): both geocoding lookups terminate with a bounded number of
requests (61 forward, 31 reverse — the 60-second elapsed ceiling divided by
the sleeps per iteration); a second request happens only after a response
whose status is in the retryable set {429, 500, 502, 503, 504}; any
non-retryable non-success response (including other 5xx codes) and any
transport failure ends the lookup immediately with "no data" after a single
request; a constantly rate-limited upstream exhausts the ceiling and yields
"no data".  Exceptions are absorbed into the "no data" result. -/
theorem lookup_bounded_retry (ip : String) (resp : Nat → HttpOutcome)
    (s : Nat) (parsed : Option GeoPayload) (la lo : Int) (hip : ip ≠ "") :
    (lookup_location ip resp).2 ≤ 61 ∧
    (lookup_location_from_coords (some la) (some lo) resp).2 ≤ 31 ∧
    (2 ≤ (lookup_location ip resp).2 →
      ∃ s0 d0, resp 0 = .response s0 d0 ∧ retryStatus s0 = true) ∧
    (2 ≤ (lookup_location_from_coords (some la) (some lo) resp).2 →
      ∃ s0 d0, resp 0 = .response s0 d0 ∧ retryStatus s0 = true) ∧
    (resp 0 = .response s parsed → retryStatus s = false → respOk s = false →
      lookup_location ip resp = (noGeoData, 1) ∧
      lookup_location_from_coords (some la) (some lo) resp = ((none, none), 1)) ∧
    (resp 0 = .transportFailure →
      lookup_location ip resp = (noGeoData, 1) ∧
      lookup_location_from_coords (some la) (some lo) resp = ((none, none), 1)) ∧
    lookup_location "1.2.3.4" (fun _ => .response 429 none) = (noGeoData, 61) ∧
    lookup_location_from_coords (some 1) (some 2) (fun _ => .response 429 none)
      = ((none, none), 31) := by
  have hfwd : lookup_location ip resp = lookupLoop resp 0 61 := by
    unfold lookup_location
    rw [if_neg hip]
  have hrev : lookup_location_from_coords (some la) (some lo) resp
      = lookupCoordsLoop resp 0 31 := by
    unfold lookup_location_from_coords
    rw [if_neg (by simp)]
  refine ⟨?_, ?_, ?_, ?_, ?_, ?_, by decide, by decide⟩
  · rw [hfwd]
    exact lookupLoop_requests_le resp 0 61
  · rw [hrev]
    exact lookupCoordsLoop_requests_le resp 0 31
  · rw [hfwd]
    exact lookupLoop_retry_only resp 0 61
  · rw [hrev]
    exact lookupCoordsLoop_retry_only resp 0 31
  · intro hresp hs hok
    constructor
    · rw [hfwd]
      unfold lookupLoop
      rw [hresp]
      dsimp only
      rw [if_neg (by simp [hs]), if_neg (by simp [hok])]
    · rw [hrev]
      unfold lookupCoordsLoop
      rw [hresp]
      dsimp only
      by_cases h403 : s = 403
      · rw [if_pos h403]
      · rw [if_neg h403, if_neg (by simp [hs]), if_neg (by simp [hok])]
  · intro hresp
    constructor
    · rw [hfwd]
      unfold lookupLoop
      rw [hresp]
    · rw [hrev]
      unfold lookupCoordsLoop
      rw [hresp]

/-! ## Closed witnesses for the hypothesis-bearing theorems -/

/-- An empty store whose `Product` table holds one product. -/
def exampleDb1 : Db :=
  { visitors := [], views := [], likes := [], products := ["p1"],
    nextViewId := 0, nextLikeId := 0 }

/-- Closed instance of `recordView_idempotent_pair` on the empty store. -/
theorem recordView_idempotent_pair_witness :
    (∀ w ∈ exampleDb1.views, w.id < exampleDb1.nextViewId) ∧
    "p1" ∈ exampleDb1.products ∧ "v1" ≠ "" ∧
    viewsFor exampleDb1 "v1" "p1" = [] ∧
    ((recordView geoNone exampleDb1 "p1" "v1" none none (some "9.9.9.9") 3).1 = .ok false ∧
     (recordView geoNone (recordView geoNone exampleDb1 "p1" "v1" none none (some "9.9.9.9") 3).2
        "p1" "v1" none none (some "9.9.9.9") 4).1 = .ok true ∧
     ∃ e, viewsFor
         (recordView geoNone (recordView geoNone exampleDb1 "p1" "v1" none none (some "9.9.9.9") 3).2
           "p1" "v1" none none (some "9.9.9.9") 4).2 "v1" "p1" = [e] ∧
       e.id = exampleDb1.nextViewId ∧ e.viewed_at = 4) :=
  ⟨by decide, by decide, by decide, by decide,
   recordView_idempotent_pair geoNone exampleDb1 "v1" "p1" none none none none
     (some "9.9.9.9") (some "9.9.9.9") 3 4 (by decide) (by decide) (by decide) (by decide)⟩

/-- A store holding one view event (without coordinates) for `("v1", "p1")`. -/
def exampleDb6 : Db :=
  { visitors := [], views := [mkView 1 "v1" "p1" 0 (some "US") (some "NYC")],
    likes := [], products := ["p1"], nextViewId := 2, nextLikeId := 0 }

/-- Closed instance of `recordView_stale_snapshot` on a store whose stored
event has no coordinates, so the supplied `(2, 2)` differs. -/
theorem recordView_stale_snapshot_witness :
    ((exampleDb6.views.map (fun w => w.id)).Nodup ∧
     "p1" ∈ exampleDb6.products ∧ "v1" ≠ "" ∧
     viewsFor exampleDb6 "v1" "p1" = [mkView 1 "v1" "p1" 0 (some "US") (some "NYC")]) ∧
    ((recordView geoNone exampleDb6 "p1" "v1" (some 2) (some 2) none 5).1 = .ok true ∧
     viewsFor (recordView geoNone exampleDb6 "p1" "v1" (some 2) (some 2) none 5).2 "v1" "p1"
       = [applyRepeatView (mkView 1 "v1" "p1" 0 (some "US") (some "NYC")) (some 2) (some 2) 5] ∧
     (((mkView 1 "v1" "p1" 0 (some "US") (some "NYC")).latitude ≠ some 2 ∨
       (mkView 1 "v1" "p1" 0 (some "US") (some "NYC")).longitude ≠ some 2) →
       (applyRepeatView (mkView 1 "v1" "p1" 0 (some "US") (some "NYC")) (some 2) (some 2) 5).latitude = some 2 ∧
       (applyRepeatView (mkView 1 "v1" "p1" 0 (some "US") (some "NYC")) (some 2) (some 2) 5).longitude = some 2 ∧
       (applyRepeatView (mkView 1 "v1" "p1" 0 (some "US") (some "NYC")) (some 2) (some 2) 5).country = none ∧
       (applyRepeatView (mkView 1 "v1" "p1" 0 (some "US") (some "NYC")) (some 2) (some 2) 5).city = none) ∧
     ((mkView 1 "v1" "p1" 0 (some "US") (some "NYC")).latitude = some 2 →
       (mkView 1 "v1" "p1" 0 (some "US") (some "NYC")).longitude = some 2 →
       (applyRepeatView (mkView 1 "v1" "p1" 0 (some "US") (some "NYC")) (some 2) (some 2) 5).country
         = (mkView 1 "v1" "p1" 0 (some "US") (some "NYC")).country ∧
       (applyRepeatView (mkView 1 "v1" "p1" 0 (some "US") (some "NYC")) (some 2) (some 2) 5).city
         = (mkView 1 "v1" "p1" 0 (some "US") (some "NYC")).city)) :=
  ⟨⟨by decide, by decide, by decide, by decide⟩,
   recordView_stale_snapshot geoNone exampleDb6 "v1" "p1" 2 2 none 5
     (mkView 1 "v1" "p1" 0 (some "US") (some "NYC"))
     (by decide) (by decide) (by decide) (by decide)⟩

/-- Closed instance of `toggleLike_twice_restores` on the empty store. -/
theorem toggleLike_twice_restores_witness :
    ("p1" ∈ exampleDb1.products ∧ "v1" ≠ "" ∧ likesFor exampleDb1 "v1" "p1" = []) ∧
    ((toggleLike geoNone (toggleLike geoNone exampleDb1 "p1" "v1" none 3).2 "p1" "v1" none 4).1
       = .ok false (likeCount exampleDb1 "p1") ∧
     likesFor (toggleLike geoNone (toggleLike geoNone exampleDb1 "p1" "v1" none 3).2
         "p1" "v1" none 4).2 "v1" "p1" = likesFor exampleDb1 "v1" "p1" ∧
     likeCount (toggleLike geoNone (toggleLike geoNone exampleDb1 "p1" "v1" none 3).2
         "p1" "v1" none 4).2 "p1" = likeCount exampleDb1 "p1") :=
  ⟨⟨by decide, by decide, by decide⟩,
   toggleLike_twice_restores geoNone exampleDb1 "v1" "p1" none none 3 4
     (by decide) (by decide) (by decide)⟩

/-- A locked (five failed attempts), unexpired, unused stored code. -/
def exampleOtpLocked : EmailOTP :=
  { id := 2, email := "e", purpose := "signup", code := "1234", created_at := 0,
    expires_at := 100, used := false, attempt_count := 5, max_attempts := 5 }

/-- Closed instance of `validate_otp_precedence` on a locked, unexpired code
submitted with its correct value. -/
theorem validate_otp_precedence_witness :
    (lowerStr (trimStr "e") ≠ "" ∧ trimStr "1234" ≠ "" ∧
     latestOtpFor [exampleOtpLocked] (lowerStr (trimStr "e")) "signup" = some exampleOtpLocked) ∧
    ((exampleOtpLocked.isExpired 1 = true →
       (validate_otp [exampleOtpLocked] "e" "signup" "1234" 1).1
         = { valid := false, error_code := some .code_expired } ∧
       ∀ w ∈ (validate_otp [exampleOtpLocked] "e" "signup" "1234" 1).2,
         w.id = exampleOtpLocked.id → w.used = true) ∧
     (exampleOtpLocked.isExpired 1 = false → exampleOtpLocked.isLocked = true →
       (validate_otp [exampleOtpLocked] "e" "signup" "1234" 1).1
         = { valid := false, error_code := some .too_many_attempts }) ∧
     (exampleOtpLocked.isExpired 1 = false → exampleOtpLocked.isLocked = false →
       exampleOtpLocked.code = trimStr "1234" →
       (validate_otp [exampleOtpLocked] "e" "signup" "1234" 1).1
         = { valid := true, error_code := none })) :=
  ⟨⟨by decide, by decide, by decide⟩,
   validate_otp_precedence [exampleOtpLocked] "e" "signup" "1234" 1 exampleOtpLocked
     (by decide) (by decide) (by decide)⟩

/-- The aggregation row for product A on `exampleDb4`. -/
def examplePopA : PopEntry :=
  { product_id := "A", country := some "US", city := some "NYC",
    view_count := 2, last_viewed_at := 11, location_priority := 2 }

/-- Closed instance of `popularAgg_spec` at product A's row on the A/B/C
scenario store. -/
theorem popularAgg_spec_witness :
    examplePopA ∈ popularAgg exampleDb4 (some "X") 0 10 ∧
    ((examplePopA.view_count = ((windowViews exampleDb4 0).filter (fun w =>
        w.product_id = examplePopA.product_id ∧ w.country = examplePopA.country ∧
        w.city = examplePopA.city)).length ∧
      examplePopA.location_priority = casePriority (visitorLoc exampleDb4 (some "X")).1
        (visitorLoc exampleDb4 (some "X")).2 examplePopA.country examplePopA.city) ∧
     AdjSorted popLE (popularAgg exampleDb4 (some "X") 0 10) ∧
     popularList exampleDb4 (some "X") 0 10 = ["A", "B", "C"]) :=
  ⟨by decide, popularAgg_spec exampleDb4 (some "X") 0 10 examplePopA (by decide)⟩

/-- Closed instance of `alsoViewed_personal_exclusion` on `exampleDb7`. -/
theorem alsoViewed_personal_exclusion_witness :
    ((∃ v ∈ exampleDb7.visitors, v.visitor_id = "X") ∧
     (∃ w ∈ exampleDb7.views, w.visitor_id = "X" ∧ w.product_id = "Q") ∧
     alsoViewed exampleDb7 "P" (some "X") 0 10 = some []) ∧
    ("Q" ∉ ([] : List String) ∧
     alsoViewed exampleDb7 "P" none 0 10 = some ["Q"] ∧
     alsoViewed exampleDb7 "P" (some "X") 0 10 = some []) :=
  ⟨⟨by decide, by decide, by decide⟩,
   alsoViewed_personal_exclusion exampleDb7 "P" "X" "Q" 0 10 []
     (by decide) (by decide) (by decide)⟩

/-- Closed instance of `lookup_bounded_retry` at a constantly-404 upstream. -/
theorem lookup_bounded_retry_witness :
    ("1.2.3.4" ≠ "" ∧
     (fun _ : Nat => HttpOutcome.response 404 none) 0 = .response 404 none) ∧
    ((lookup_location "1.2.3.4" (fun _ => .response 404 none)).2 ≤ 61 ∧
     (lookup_location_from_coords (some 1) (some 2) (fun _ => .response 404 none)).2 ≤ 31 ∧
     lookup_location "1.2.3.4" (fun _ => .response 404 none) = (noGeoData, 1) ∧
     lookup_location_from_coords (some 1) (some 2) (fun _ => .response 404 none)
       = ((none, none), 1) ∧
     lookup_location "1.2.3.4" (fun _ => .response 429 none) = (noGeoData, 61) ∧
     lookup_location_from_coords (some 1) (some 2) (fun _ => .response 429 none)
       = ((none, none), 31)) := by
  have h := lookup_bounded_retry "1.2.3.4" (fun _ => .response 404 none) 404 none 1 2
    (by decide)
  have himm := h.2.2.2.2.1 rfl (by decide) (by decide)
  exact ⟨⟨by decide, rfl⟩, h.1, h.2.1, himm.1, himm.2, h.2.2.2.2.2.2.1, h.2.2.2.2.2.2.2⟩

end HomeDar
